import Mathlib

/-!
Verification of the static-content pipeline of this repository: the exported
Astro configuration (src/astro.config.mjs) and the single Markdown content
file with its front-matter block. Components owned by the external framework
(configuration loader, content document resolver, build pipeline, date and
URL parsing) are modelled from the specification; the repository's own files
are embedded verbatim. String processing is carried out on character lists by
structural recursion so that every definition evaluates inside the kernel.
-/

/-- A value stored in a field of the exported configuration object: either a
string or a list of integration invocations (recorded by integration name). -/
inductive ConfigValue where
  | str : String → ConfigValue
  | integrationList : List String → ConfigValue
deriving DecidableEq

/-- Embedding of src/astro.config.mjs lines 8-11: the object literal passed to
defineConfig, with its field names kept as data so the shape of the exported
record is itself checkable. -/
def configObject : List (String × ConfigValue) :=
  [("site", ConfigValue.str "https://redyeti.dev"),
   ("integrations", ConfigValue.integrationList ["tailwind", "icon"])]

/-- A raw configuration record as handed to the configuration loader: an
optional site URL and an ordered list of integration invocations. -/
structure RawConfig where
  site : Option String
  integrations : List String
deriving DecidableEq

/-- Embedding of src/astro.config.mjs: the repository's configuration record,
with site "https://redyeti.dev" and integrations [tailwind(), icon()]. -/
def repoConfig : RawConfig :=
  { site := some "https://redyeti.dev", integrations := ["tailwind", "icon"] }

/-- Split a character list at the first occurrence of the (nonempty)
separator: returns the part before it and the part after it, or none when the
separator does not occur. -/
def splitFirst (sep : List Char) : List Char → Option (List Char × List Char)
  | [] => none
  | c :: cs =>
    if List.isPrefixOf sep (c :: cs) then some ([], (c :: cs).drop sep.length)
    else (splitFirst sep cs).map (fun p => (c :: p.1, p.2))

/-- Modelled from the spec: "siteURL must be a syntactically valid absolute
URL" — the validator belongs to the external framework and is not in the
repository. An absolute URL is a nonempty all-letter scheme, the separator
"://", and a nonempty remainder. -/
def isAbsoluteURL (s : String) : Bool :=
  match splitFirst [':', '/', '/'] s.data with
  | none => false
  | some (scheme, rest) =>
    !scheme.isEmpty && scheme.all Char.isAlpha && !rest.isEmpty

/-- Errors of the configuration loader, all fatal. -/
inductive ConfigError where
  | missingSite
  | invalidSite
  | unknownIntegration
deriving DecidableEq

/-- The integrations wired into the repository's build (src/astro.config.mjs
imports tailwind and icon). -/
def knownIntegrations : List String := ["tailwind", "icon"]

/-- A validated Site Configuration record: the canonical base URL and the
ordered integration list. -/
structure SiteConfiguration where
  siteURL : String
  integrations : List String
deriving DecidableEq

/-- Modelled from the spec: the Configuration Loader (external framework code;
only its call site src/astro.config.mjs is in the repository) validates
eagerly — a missing or syntactically invalid site URL fails fast with a
configuration error, unknown integration entries are rejected — and otherwise
exposes the record unchanged. -/
def loadConfig (c : RawConfig) : Except ConfigError SiteConfiguration :=
  match c.site with
  | none => Except.error ConfigError.missingSite
  | some u =>
    if !isAbsoluteURL u then Except.error ConfigError.invalidSite
    else if c.integrations.all (fun i => knownIntegrations.contains i) then
      Except.ok { siteURL := u, integrations := c.integrations }
    else Except.error ConfigError.unknownIntegration
/-- The lines of the repository's single content file: a front-matter block
(lines 1-5) followed by a Markdown body. -/
def postFile : List String := [
  "---",
  "title: Collecting code coverage in Node.js",
  "layout: ../../layouts/PostLayout.astro",
  "pubDate: November 2nd, 2024",
  "---",
  "",
  "# Collecting code coverage in Node.js",
  "",
  "Node.js provides built-in support for code coverage through its test runner, which can be enabled using the [`--experimental-code-coverage`](https://nodejs.org/api/cli.html#--experimental-test-coverage) flag.",
  "",
  "If using the `run()` API, the `coverage` option must be set to `true`. For more information on the `run()` API, see [the `node:test` documentation](https://nodejs.org/docs/latest/api/test.html#runoptions).",
  "",
  "## What is code coverage?",
  "",
  "Code coverage is a metric for test runners that gauges how much of a program’s source code is executed during testing. It reveals which portions of the codebase are tested and which are not, helping to pinpoint gaps in the test suite. This ensures more comprehensive testing of the software and minimizes the risk of undetected bugs. Typically expressed as a percentage, higher code coverage percentages indicate more thorough test coverage. For a more detailed explanation of code coverage, you can refer to the [\"Code coverage\" Wikipedia article](https://en.wikipedia.org/wiki/Code_coverage).",
  "",
  "## Basic coverage reporting",
  "",
  "Let\x27s walk through a simple example to demonstrate how code coverage works in Node.js.",
  "",
  "> **Note:** This example, and all other ones in this file, are written using CommonJS. If you are unfamiliar with this concept, please read the [CommonJS Modules](https://nodejs.org/docs/latest/api/modules.html) documentation.",
  "",
  "```javascript",
  "// main.js",
  "function add(a, b) \x7b",
  "  return a + b;",
  "\x7d",
  "",
  "function isEven(num) \x7b",
  "  return num % 2 === 0;",
  "\x7d",
  "",
  "function multiply(a, b) \x7b",
  "  return a * b;",
  "\x7d",
  "",
  "module.exports = \x7b add, isEven, multiply \x7d;",
  "```",
  "",
  "```javascript",
  "// main.test.js",
  "const \x7b add, isEven \x7d = require(\x27./main.js\x27);",
  "const \x7b test \x7d = require(\x27node:test\x27);",
  "",
  "test(\x27add() should add two numbers\x27, t => \x7b",
  "  t.assert.strictEqual(add(1, 2), 3);",
  "\x7d);",
  "",
  "test(\x27isEven() should report whether a number is even\x27, t => \x7b",
  "  t.assert.ok(isEven(0));",
  "\x7d);",
  "```",
  "",
  "In the module, we have three functions: `add`, `isEven`, and `multiply`.",
  "",
  "In the test file, we are testing the `add()` and `isEven()` functions. Notice that the `multiply()` function is not covered by any tests.",
  "",
  "To collect code coverage while running your tests, see the following snippets:",
  "",
  "```bash",
  "# CLI",
  "node --experimental-test-coverage --test main.test.js",
  "```",
  "",
  "```js",
  "// run()",
  "run(\x7b files: [\x27main.test.js\x27], coverage: true \x7d);",
  "```",
  "",
  "After running the tests, you\x27ll receive a report that looks something like this:",
  "",
  "```text",
  "Coverage Report",
  "✔ add() should add two numbers (1.505987ms)",
  "✔ isEven() should report whether a number is even (0.175859ms)",
  "ℹ tests 2",
  "ℹ suites 0",
  "ℹ pass 2",
  "ℹ fail 0",
  "ℹ cancelled 0",
  "ℹ skipped 0",
  "ℹ todo 0",
  "ℹ duration_ms 59.480373",
  "ℹ start of coverage report",
  "ℹ -------------------------------------------------------------",
  "ℹ file         | line % | branch % | funcs % | uncovered lines",
  "ℹ -------------------------------------------------------------",
  "ℹ main.js      |  76.92 |   100.00 |   66.67 | 9-11",
  "ℹ main.test.js | 100.00 |   100.00 |  100.00 |",
  "ℹ -------------------------------------------------------------",
  "ℹ all files    |  86.96 |   100.00 |   80.00 |",
  "ℹ -------------------------------------------------------------",
  "ℹ end of coverage report",
  "```",
  "",
  "The coverage report provides a breakdown of how much of your code is covered by tests:",
  "",
  "- **Line Coverage**: The percentage of lines executed during the tests.",
  "- **Branch Coverage**: The percentage of code branches (like if-else statements) tested.",
  "- **Function Coverage**: The percentage of functions that have been invoked during testing.",
  "",
  "In this example:",
  "",
  "- `main.js` shows 76.92% line coverage and 66.67% function coverage because the `multiply()` function was not tested. The uncovered lines (9-11) correspond to this function.",
  "- `main.test.js` shows 100% coverage across all metrics, indicating that the tests themselves were fully executed.",
  "",
  "## Including and excluding",
  "",
  "When working on applications, you might encounter situations where certain files or lines of code need to be excluded.",
  "",
  "Node.js provides mechanisms to handle this, including the use of comments to ignore specific code sections and the CLI to exclude entire patterns.",
  "",
  "### Using comments",
  "",
  "```javascript",
  "// main.js",
  "function add(a, b) \x7b",
  "  return a + b;",
  "\x7d",
  "",
  "function isEven(num) \x7b",
  "  return num % 2 === 0;",
  "\x7d",
  "",
  "/* node:coverage ignore next 3 */",
  "function multiply(a, b) \x7b",
  "  return a * b;",
  "\x7d",
  "",
  "module.exports = \x7b add, isEven, multiply \x7d;",
  "```",
  "",
  "When reporting coverage with this modified `main.js` file, the report will now show 100% coverage across all metrics. This is because the uncovered lines (9-11) have been ignored.",
  "",
  "There are multiple ways to ignore sections of code using comments.",
  "",
  "```javascript",
  "// ignore next",
  "function add(a, b) \x7b",
  "  return a + b;",
  "\x7d",
  "",
  "function isEven(num) \x7b",
  "  return num % 2 === 0;",
  "\x7d",
  "",
  "/* node:coverage ignore next 3 */",
  "function multiply(a, b) \x7b",
  "  return a * b;",
  "\x7d",
  "",
  "module.exports = \x7b add, isEven, multiply \x7d;",
  "```",
  "",
  "```javascript",
  "// ignore next",
  "function add(a, b) \x7b",
  "  return a + b;",
  "\x7d",
  "",
  "function isEven(num) \x7b",
  "  return num % 2 === 0;",
  "\x7d",
  "",
  "/* node:coverage ignore next */",
  "function multiply(a, b) \x7b",
  "  /* node:coverage ignore next */",
  "  return a * b;",
  "  /* node:coverage ignore next */",
  "\x7d",
  "",
  "module.exports = \x7b add, isEven, multiply \x7d;",
  "```",
  "",
  "```javascript",
  "// disable",
  "function add(a, b) \x7b",
  "  return a + b;",
  "\x7d",
  "",
  "function isEven(num) \x7b",
  "  return num % 2 === 0;",
  "\x7d",
  "",
  "/* node:coverage disable */",
  "function multiply(a, b) \x7b",
  "  return a * b;",
  "\x7d",
  "/* node:coverage enable */",
  "",
  "module.exports = \x7b add, isEven, multiply \x7d;",
  "```",
  "",
  "Each of these different methods will produce the same report, with 100% code coverage across all metrics.",
  "",
  "### Using the CLI",
  "",
  "Node.js offers two CLI arguments for managing the inclusion or exclusion of specific files in a coverage report.",
  "",
  "The [`--test-coverage-include`](https://nodejs.org/api/cli.html#--test-coverage-include) flag (`coverageIncludeGlobs` in the `run()` API) restricts the coverage to files that match the provided glob pattern. By default, files in the `/node_modules/` directory are excluded, but this flag allows you to explicitly include them.",
  "",
  "The [`--test-coverage-exclude`](https://nodejs.org/api/cli.html#--test-coverage-exclude) flag (`coverageExcludeGlobs` in the `run()` API) omits files that match the given glob pattern from the coverage report.",
  "",
  "These flags can be used multiple times, and when both are used together, files must adhere to the inclusion rules, while also avoiding the exclusion rules.",
  "",
  "```text",
  "Directory Structure",
  ".",
  "├── main.test.js",
  "├── src",
  "│   ├── age.js",
  "│   └── name.js",
  "```",
  "",
  "```text",
  "Coverage Report",
  "ℹ start of coverage report",
  "ℹ -------------------------------------------------------------",
  "ℹ file         | line % | branch % | funcs % | uncovered lines",
  "ℹ -------------------------------------------------------------",
  "ℹ main.test.js | 100.00 |   100.00 |  100.00 |",
  "ℹ src/age.js   |  45.45 |   100.00 |    0.00 | 3-5 7-9",
  "ℹ src/name.js  | 100.00 |   100.00 |  100.00 |",
  "ℹ -------------------------------------------------------------",
  "ℹ all files    |  88.68 |   100.00 |   75.00 |",
  "ℹ -------------------------------------------------------------",
  "ℹ end of coverage report",
  "```",
  "",
  "`src/age.js` has less-than-optimal coverage in the report above, but with the `--test-coverage-exclude` flag (`coverageExcludeGlobs` in the `run()` API), it can be excluded from the report entirely.",
  "",
  "```bash",
  "# CLI",
  "node --experimental-test-coverage --test-coverage-exclude=src/age.js --test main.test.js",
  "```",
  "",
  "```js",
  "// run()",
  "run(\x7b files: [\x27main.test.js\x27], coverage: true, coverageExclude: [\x27src/age.js\x27] \x7d);",
  "```",
  "",
  "```text",
  "New coverage report",
  "ℹ start of coverage report",
  "ℹ -------------------------------------------------------------",
  "ℹ file         | line % | branch % | funcs % | uncovered lines",
  "ℹ -------------------------------------------------------------",
  "ℹ main.test.js | 100.00 |   100.00 |  100.00 |",
  "ℹ src/name.js  | 100.00 |   100.00 |  100.00 |",
  "ℹ -------------------------------------------------------------",
  "ℹ all files    | 100.00 |   100.00 |  100.00 |",
  "ℹ -------------------------------------------------------------",
  "ℹ end of coverage report",
  "```",
  "",
  "Our test file is now displaying 100% coverage without `src/age.js` impacting the results.",
  "",
  "## Conclusion",
  "",
  "In this post, we covered how to collect code coverage in Node.js using the built-in test runner. By enabling the code coverage flag and structuring tests effectively, you can gain valuable insights into your code\x27s test coverage. This process not only highlights untested code but also ensures your application is more robust and less prone to hidden bugs.",
  "",
  "With this knowledge, you can confidently employ code coverage as a tool to enhance the quality of your Node.js applications."]

/-- Modelled from the spec: a front-matter line is a key-value pair written
`key: value`; the line is split at the first ": ". -/
def parseKV (line : String) : Option (String × String) :=
  match splitFirst [':', ' '] line.data with
  | none => none
  | some (k, v) => some (⟨k⟩, ⟨v⟩)

/-- Parse every front-matter line as a key-value pair, in order; any line that
is not a key-value pair makes the whole block malformed. -/
def parseKVs : List String → Option (List (String × String))
  | [] => some []
  | l :: ls =>
    match parseKV l, parseKVs ls with
    | some kv, some kvs => some (kv :: kvs)
    | _, _ => none

/-- Split the lines after the opening delimiter at the first closing "---"
line: returns the front-matter lines and the body, or none when the block is
unclosed. -/
def splitAtClose : List String → Option (List String × List String)
  | [] => none
  | l :: ls =>
    if l = "---" then some ([], ls)
    else (splitAtClose ls).map (fun p => (l :: p.1, p.2))

/-- Modelled from the spec: "a front-matter block (key-value pairs: title,
layout referencing a layout by relative path, pubDate) followed by a markup
body". The file must open with a "---" line, the block runs to the next "---"
line, and every line in between must parse as a key-value pair; otherwise the
block is malformed. -/
def parseFrontMatter (lines : List String) :
    Option (List (String × String) × List String) :=
  match lines with
  | "---" :: rest =>
    match splitAtClose rest with
    | none => none
    | some (fmLines, body) =>
      match parseKVs fmLines with
      | none => none
      | some fm => some (fm, body)
  | _ => none

/-- A Content Document: front-matter key-value pairs and a raw markup body. -/
structure ContentDocument where
  frontMatter : List (String × String)
  body : List String
deriving DecidableEq

/-- Errors of the Content Document Resolver. -/
inductive ResolveError where
  | ParseError
  | MissingLayoutError
deriving DecidableEq

/-- Modelled from the spec: the Content Document Resolver (external framework
code; only the content file is in the repository) produces a Content Document
or fails with ParseError (malformed front-matter block) or MissingLayoutError
(referenced layout identifier not found in the layout registry). A block with
no layout reference cannot be associated with any layout, so it also fails
with MissingLayoutError. -/
def resolve (registry : List String) (lines : List String) :
    Except ResolveError ContentDocument :=
  match parseFrontMatter lines with
  | none => Except.error ResolveError.ParseError
  | some (fm, body) =>
    match List.lookup "layout" fm with
    | none => Except.error ResolveError.MissingLayoutError
    | some l =>
      if registry.contains l then Except.ok { frontMatter := fm, body := body }
      else Except.error ResolveError.MissingLayoutError

/-- A rendered page: its metadata and its content. -/
structure RenderedPage where
  metadata : List (String × String)
  content : List String
deriving DecidableEq

/-- Modelled from the spec: rendering merges a document's front-matter with
its layout; the emitted page's metadata exactly reproduces the front-matter. -/
def render (d : ContentDocument) : RenderedPage :=
  { metadata := d.frontMatter, content := d.body }

/-- Resolve every content file in order; the first error aborts. -/
def resolveAll (registry : List String) :
    List (List String) → Except ResolveError (List ContentDocument)
  | [] => Except.ok []
  | f :: fs =>
    match resolve registry f with
    | Except.error e => Except.error e
    | Except.ok d =>
      match resolveAll registry fs with
      | Except.error e => Except.error e
      | Except.ok ds => Except.ok (d :: ds)

/-- Modelled from the spec: the content pipeline resolves every content file
and emits one rendered page per document; any error aborts the build, so a
failed build emits zero pages (there is no mode that emits only some pages). -/
def pipeline (registry : List String) (files : List (List String)) :
    Except ResolveError (List RenderedPage) :=
  match resolveAll registry files with
  | Except.error e => Except.error e
  | Except.ok ds => Except.ok (ds.map render)

/-- Errors of a whole build. -/
inductive BuildError where
  | configError : ConfigError → BuildError
  | contentError : ResolveError → BuildError
deriving DecidableEq

/-- Modelled from the spec: load configuration, then discover and resolve
content, then emit pages; configuration errors are fatal and occur before any
content processing begins. -/
def build (c : RawConfig) (registry : List String)
    (files : List (List String)) :
    Except BuildError (SiteConfiguration × List RenderedPage) :=
  match loadConfig c with
  | Except.error e => Except.error (BuildError.configError e)
  | Except.ok vc =>
    match pipeline registry files with
    | Except.error e => Except.error (BuildError.contentError e)
    | Except.ok pages => Except.ok (vc, pages)

/-- Modelled from the spec: the layout registry of the repository; the post's
front-matter references the layout ../../layouts/PostLayout.astro by relative
path, and the spec's scenarios treat that reference as resolving. -/
def layoutRegistry : List String := ["../../layouts/PostLayout.astro"]

/-- English month names and their numbers. -/
def monthNumber (m : String) : Option Nat :=
  List.lookup m
    [("January", 1), ("February", 2), ("March", 3), ("April", 4), ("May", 5),
     ("June", 6), ("July", 7), ("August", 8), ("September", 9),
     ("October", 10), ("November", 11), ("December", 12)]

/-- The English ordinal suffixes. -/
def ordinalSuffixes : List String := ["st", "nd", "rd", "th"]

/-- Read a nonempty list of decimal digits as a number. -/
def charsToNat (cs : List Char) : Option Nat :=
  if cs.isEmpty || !cs.all Char.isDigit then none
  else some (cs.foldl (fun n c => 10 * n + (c.toNat - 48)) 0)

/-- A day of month with ordinal suffix, such as "2nd": a nonempty digit run
followed by an ordinal suffix. -/
def parseDayOrdinal (s : String) : Option Nat :=
  let digits := s.data.takeWhile Char.isDigit
  let suffix : String := ⟨s.data.dropWhile Char.isDigit⟩
  if !ordinalSuffixes.contains suffix then none
  else charsToNat digits

/-- Modelled from the spec: "pubDate must be parseable as a date" — date
parsing belongs to the external framework; the repository's convention writes
a date as an English month name, a day of month with ordinal suffix, a comma,
and a year. Returns (year, month, day). -/
def parseDate (s : String) : Option (Nat × Nat × Nat) :=
  match splitFirst [',', ' '] s.data with
  | none => none
  | some (md, y) =>
    match splitFirst [' '] md with
    | none => none
    | some (m, d) =>
      match monthNumber ⟨m⟩, parseDayOrdinal ⟨d⟩, charsToNat y with
      | some mn, some dn, some yn =>
        if 1 ≤ dn ∧ dn ≤ 31 then some (yn, mn, dn) else none
      | _, _, _ => none

/-- The title written in the post's front-matter (src/unnamed/part_000,
line 2). -/
def postTitle : String := "Collecting code coverage in Node.js"

/-- The layout reference written in the post's front-matter (line 3). -/
def postLayout : String := "../../layouts/PostLayout.astro"

/-- The pubDate written in the post's front-matter (line 4). -/
def postPubDate : String := "November 2nd, 2024"

/-- The post's front-matter as key-value pairs, in file order. -/
def postFM : List (String × String) :=
  [("title", postTitle), ("layout", postLayout), ("pubDate", postPubDate)]

/-- The post's body: everything after the closing "---" of the front-matter. -/
def postBody : List String := postFile.drop 5

/-- C1: for every content file whose front-matter block is well-formed (it
parses) and whose layout reference resolves in the registry, the resolver
produces exactly one Content Document, whose title, layout and pubDate
front-matter equal, verbatim, the values written in the source file. -/
theorem resolve_wellFormed_ok (registry lines : List String)
    (fm : List (String × String)) (body : List String) (l t p : String)
    (hparse : parseFrontMatter lines = some (fm, body))
    (hl : List.lookup "layout" fm = some l)
    (hreg : registry.contains l = true)
    (ht : List.lookup "title" fm = some t)
    (hp : List.lookup "pubDate" fm = some p) :
    ∃ d : ContentDocument,
      resolve registry lines = Except.ok d ∧
      (∀ d', resolve registry lines = Except.ok d' → d' = d) ∧
      List.lookup "title" d.frontMatter = some t ∧
      List.lookup "layout" d.frontMatter = some l ∧
      List.lookup "pubDate" d.frontMatter = some p := by
  have hmem : l ∈ registry := by simpa using hreg
  have h : resolve registry lines = Except.ok ⟨fm, body⟩ := by
    simp [resolve, hparse, hl, hmem]
  refine ⟨⟨fm, body⟩, h, ?_, ht, hl, hp⟩
  intro d' hd'
  rw [h] at hd'
  injection hd' with hd'
  exact hd'.symm

/-- C1 witness: at the repository's post, the resolver yields exactly one
document, with title "Collecting code coverage in Node.js", layout
"../../layouts/PostLayout.astro" and pubDate "November 2nd, 2024". -/
theorem resolve_wellFormed_ok_witness :
    ∃ d : ContentDocument,
      resolve layoutRegistry postFile = Except.ok d ∧
      (∀ d', resolve layoutRegistry postFile = Except.ok d' → d' = d) ∧
      List.lookup "title" d.frontMatter =
        some "Collecting code coverage in Node.js" ∧
      List.lookup "layout" d.frontMatter =
        some "../../layouts/PostLayout.astro" ∧
      List.lookup "pubDate" d.frontMatter = some "November 2nd, 2024" :=
  resolve_wellFormed_ok layoutRegistry postFile postFM postBody
    "../../layouts/PostLayout.astro" "Collecting code coverage in Node.js"
    "November 2nd, 2024" rfl rfl rfl rfl rfl

/-- C2: the repository's content document satisfies the pubDate invariant:
the resolver yields a document whose pubDate front-matter value
"November 2nd, 2024" is parseable as a date, namely November 2, 2024. -/
theorem post_pubDate_parseable :
    ∃ d : ContentDocument,
      resolve layoutRegistry postFile = Except.ok d ∧
      List.lookup "pubDate" d.frontMatter = some "November 2nd, 2024" ∧
      parseDate "November 2nd, 2024" = some (2024, 11, 2) :=
  ⟨⟨postFM, postBody⟩, rfl, rfl, rfl⟩

/-- C3 counterexample: the exported configuration record has no attribute
named "siteURL" at all, so its base URL is not carried under that name. -/
theorem configObject_no_siteURL :
    List.lookup "siteURL" configObject = none := rfl

/-- C3 (amended): the exported configuration record carries its base URL
under the field named "site", not "siteURL". -/
theorem configObject_site_field :
    List.lookup "site" configObject =
      some (ConfigValue.str "https://redyeti.dev") ∧
    List.lookup "siteURL" configObject = none := ⟨rfl, rfl⟩

/-- C4: the site URL of the repository's exported configuration is a
non-empty, syntactically valid absolute URL; concretely the value
"https://redyeti.dev" satisfies the invariant. -/
theorem repoConfig_site_valid :
    repoConfig.site = some "https://redyeti.dev" ∧
    "https://redyeti.dev" ≠ "" ∧
    isAbsoluteURL "https://redyeti.dev" = true := by
  refine ⟨rfl, ?_, rfl⟩
  decide

/-- C5: the loader accepts every valid configuration record and returns it
unchanged: the validated record's integration list is the input's integration
list, in the same order. -/
theorem loadConfig_identity (c : RawConfig) (u : String)
    (hs : c.site = some u)
    (hu : isAbsoluteURL u = true)
    (hi : c.integrations.all (fun i => knownIntegrations.contains i) = true) :
    loadConfig c =
      Except.ok { siteURL := u, integrations := c.integrations } := by
  simp [loadConfig, hs, hu]
  simpa using hi

/-- C5 witness: the repository's configuration loads to a record whose
integrations are exactly ["tailwind", "icon"], in that order. -/
theorem loadConfig_identity_witness :
    loadConfig repoConfig =
      Except.ok { siteURL := "https://redyeti.dev",
                  integrations := ["tailwind", "icon"] } :=
  loadConfig_identity repoConfig "https://redyeti.dev" rfl rfl rfl

/-- C6: a configuration lacking the site field makes the loader fail with a
configuration error (missing site), and the whole build aborts with that
error whatever the content is — so no validated configuration record is
produced and no content processing outcome is reached. -/
theorem build_missing_site (c : RawConfig) (registry : List String)
    (files : List (List String)) (hs : c.site = none) :
    loadConfig c = Except.error ConfigError.missingSite ∧
    build c registry files =
      Except.error (BuildError.configError ConfigError.missingSite) := by
  have h : loadConfig c = Except.error ConfigError.missingSite := by
    simp [loadConfig, hs]
  exact ⟨h, by simp [build, h]⟩

/-- C6 witness: a concrete configuration with no site field. -/
theorem build_missing_site_witness :
    loadConfig { site := none, integrations := [] } =
      Except.error ConfigError.missingSite ∧
    build { site := none, integrations := [] } [] [] =
      Except.error (BuildError.configError ConfigError.missingSite) :=
  build_missing_site { site := none, integrations := [] } [] [] rfl

/-- C7: when the layout reference of a parsed front-matter block is not in
the layout registry, the resolver fails with MissingLayoutError and produces
no Content Document (no silently substituted default). -/
theorem resolve_missing_layout (registry lines : List String)
    (fm : List (String × String)) (body : List String) (l : String)
    (hparse : parseFrontMatter lines = some (fm, body))
    (hl : List.lookup "layout" fm = some l)
    (hreg : registry.contains l = false) :
    resolve registry lines = Except.error ResolveError.MissingLayoutError ∧
    ∀ d, resolve registry lines ≠ Except.ok d := by
  have hmem : l ∉ registry := by simpa using hreg
  have h : resolve registry lines =
      Except.error ResolveError.MissingLayoutError := by
    simp [resolve, hparse, hl, hmem]
  refine ⟨h, fun d hd => ?_⟩
  rw [h] at hd
  exact Except.noConfusion hd

/-- C7 witness: against an empty layout registry, the repository's post fails
to resolve with MissingLayoutError. -/
theorem resolve_missing_layout_witness :
    resolve [] postFile = Except.error ResolveError.MissingLayoutError ∧
    ∀ d, resolve [] postFile ≠ Except.ok d :=
  resolve_missing_layout [] postFile postFM postBody
    "../../layouts/PostLayout.astro" rfl rfl rfl

/-- An unclosed front-matter block never finds its closing delimiter. -/
theorem splitAtClose_of_not_mem (ls : List String) (h : "---" ∉ ls) :
    splitAtClose ls = none := by
  induction ls with
  | nil => rfl
  | cons l ls ih =>
    have hl : ¬(l = "---") := fun he => h (he ▸ List.mem_cons_self l ls)
    have hm : "---" ∉ ls := fun hm => h (List.mem_cons_of_mem l hm)
    simp [splitAtClose, hl, ih hm]

/-- C8: a content file whose front-matter block is unclosed (it opens with a
"---" line and no closing "---" follows) makes the pipeline fail with a parse
error, and a build over that file never succeeds — zero pages are emitted,
with no outcome in which only some pages appear. -/
theorem pipeline_unclosed_parse_error (registry : List String)
    (f rest : List String) (hopen : f = "---" :: rest)
    (hclose : "---" ∉ rest) :
    pipeline registry [f] = Except.error ResolveError.ParseError ∧
    ∀ c out, build c registry [f] ≠ Except.ok out := by
  have hp : parseFrontMatter f = none := by
    subst hopen
    simp [parseFrontMatter, splitAtClose_of_not_mem rest hclose]
  have hres : resolve registry f = Except.error ResolveError.ParseError := by
    simp [resolve, hp]
  have hpipe : pipeline registry [f] =
      Except.error ResolveError.ParseError := by
    simp [pipeline, resolveAll, hres]
  refine ⟨hpipe, fun c out hok => ?_⟩
  rcases hc : loadConfig c with e | vc
  · simp [build, hc] at hok
  · simp [build, hc, hpipe] at hok

/-- C8 witness: a two-line file opening a front-matter block and never
closing it. -/
theorem pipeline_unclosed_parse_error_witness :
    pipeline layoutRegistry [["---", "title: Hello"]] =
      Except.error ResolveError.ParseError ∧
    ∀ c out,
      build c layoutRegistry [["---", "title: Hello"]] ≠ Except.ok out :=
  pipeline_unclosed_parse_error layoutRegistry ["---", "title: Hello"]
    ["title: Hello"] rfl (by decide)

/-- C9: the exported configuration's integrations list has exactly two
entries, with tailwind strictly before icon. -/
theorem repoConfig_integrations_order :
    repoConfig.integrations = ["tailwind", "icon"] ∧
    repoConfig.integrations.length = 2 ∧
    repoConfig.integrations.indexOf "tailwind" <
      repoConfig.integrations.indexOf "icon" := by
  refine ⟨rfl, rfl, ?_⟩
  decide

/-- C10: the repository's content file's front-matter block is delimited by a
"---" line at the start and a "---" line at the end, and contains exactly the
keys title, layout and pubDate, once each and in that order, with no other
keys. -/
theorem postFile_frontMatter_shape :
    postFile.take 5 =
      ["---",
       "title: Collecting code coverage in Node.js",
       "layout: ../../layouts/PostLayout.astro",
       "pubDate: November 2nd, 2024",
       "---"] ∧
    (parseFrontMatter postFile).map (fun r => r.1.map Prod.fst) =
      some ["title", "layout", "pubDate"] := ⟨rfl, rfl⟩
